import Mathlib

/-!
Verification of the travel-compliance audit core: a shallow embedding of
the rule checkers (`timing_agent.py`, `identity_agent.py`, `route_agent.py`)
and the orchestrator (`orchestrator.py`), with theorems settling the
behavioural claims about result normalization, route matching, error
handling and report aggregation.
-/

/-- Model of a Python runtime value as produced by `json.loads` or returned
as `response.content` by the completion collaborator. -/
inductive PyVal where
  | pnone
  | pbool (b : Bool)
  | pint (n : Int)
  | pstr (s : String)
  | plist (xs : List PyVal)
  | pdict (kvs : List (String × PyVal))

/-- `isinstance(v, dict)`. -/
def PyVal.isDict : PyVal → Bool
  | .pdict _ => true
  | _ => false

/-- First binding of key `k` in an association list (Python dicts have unique
keys, so this is the dict lookup; `Option.none` models a missing key / `dict.get` returning `None`). -/
def dictFind (kvs : List (String × PyVal)) (k : String) : Option PyVal :=
  (kvs.find? (fun kv => kv.1 = k)).map (fun kv => kv.2)

/-- `v.get(k)` for a dict, `None`-like failure otherwise. -/
def PyVal.get : PyVal → String → Option PyVal
  | .pdict kvs, k => dictFind kvs k
  | _, _ => Option.none

/-- Python `d[k] = v`: replace the first binding of `k` in place, else append. -/
def setKey : List (String × PyVal) → String → PyVal → List (String × PyVal)
  | [], k, v => [(k, v)]
  | (k2, v2) :: rest, k, v =>
      if k2 = k then (k, v) :: rest else (k2, v2) :: setKey rest k v

/-- `type(v).__name__` for the modelled values. -/
def PyVal.typeName : PyVal → String
  | .pnone => "NoneType"
  | .pbool _ => "bool"
  | .pint _ => "int"
  | .pstr _ => "str"
  | .plist _ => "list"
  | .pdict _ => "dict"

theorem dictFind_setKey_self (kvs : List (String × PyVal)) (k : String) (v : PyVal) :
    dictFind (setKey kvs k v) k = some v := by
  induction kvs with
  | nil => simp [setKey, dictFind]
  | cons hd tl ih =>
      by_cases h : hd.1 = k
      · simp [setKey, h, dictFind]
      · simpa [setKey, h, dictFind, List.find?] using ih

theorem dictFind_setKey_ne (kvs : List (String × PyVal)) (k k2 : String) (v : PyVal)
    (h : k ≠ k2) : dictFind (setKey kvs k2 v) k = dictFind kvs k := by
  have hk : ¬ (k2 = k) := fun c => h c.symm
  induction kvs with
  | nil => simp [setKey, dictFind, List.find?, hk]
  | cons hd tl ih =>
      by_cases hh : hd.1 = k2
      · have h3 : ¬ (hd.1 = k) := by rw [hh]; exact hk
        simp [setKey, hh, dictFind, List.find?, hk, h3]
      · by_cases h3 : hd.1 = k
        · simp [setKey, hh, dictFind, List.find?, h3, h]
        · simpa [setKey, hh, dictFind, List.find?, h3] using ih

-- =========================================================================
-- Completion-collaborator interface and the Timing / Identity checkers
-- (src/agents/timing_agent.py, src/agents/identity_agent.py)
-- =========================================================================

/-- Outcome of `self.llm.invoke(...)`: either the call raised (message of the
exception) or it returned a response whose `content` is the given value. -/
inductive LLMOutcome where
  | failure (msg : String)
  | success (content : PyVal)

/-- The parse step shared by both delegating checkers: a string content goes
through `json.loads` (modelled by the abstract `jsonLoads`, whose `.error m`
is a `json.JSONDecodeError` with message `m`); any other content is used
directly. -/
def parsedContent (jsonLoads : String → Except String PyVal) (content : PyVal) :
    Except String PyVal :=
  match content with
  | .pstr s => jsonLoads s
  | other => .ok other

/-- The `llm_call_error` result dict built in the first `except` block. -/
def llmCallErrorDict (ruleName msg : String) : PyVal :=
  .pdict [("rule_name", .pstr ruleName), ("status", .pstr "llm_call_error"),
          ("message", .pstr msg),
          ("details", .pdict [("error_type", .pstr "llm_call_error"),
                              ("error_message", .pstr msg)])]

/-- The `json_parse_error` result dict, preserving `response.content` verbatim
in `details.raw_response`. -/
def jsonParseErrorDict (ruleName errMsg : String) (content : PyVal) : PyVal :=
  .pdict [("rule_name", .pstr ruleName), ("status", .pstr "json_parse_error"),
          ("message", .pstr "Failed to parse LLM response as valid JSON"),
          ("details", .pdict [("error_type", .pstr "json_parse_error"),
                              ("error_message", .pstr errMsg),
                              ("raw_response", content)])]

/-- The `SYSTEM_ERROR` result built when the parsed value is not a dictionary
(`"LLM returned invalid format (expected dictionary, got <type>)"`). -/
def invalidFormatDict (ruleName : String) (result : PyVal) : PyVal :=
  .pdict [("rule_name", .pstr ruleName), ("status", .pstr "SYSTEM_ERROR"),
          ("message", .pstr ("LLM returned invalid format (expected dictionary, got "
                              ++ result.typeName ++ ")")),
          ("details", .pdict [("error_type", .pstr "invalid_format"),
                              ("raw_response", result)])]

/-- `if "status" not in result: result["status"] = "SYSTEM_ERROR"; ...` —
inject `status`, `message` and `rule_name` when `status` is absent. -/
def ensureStatus (ruleName : String) (kvs : List (String × PyVal)) : PyVal :=
  match dictFind kvs "status" with
  | some _ => .pdict kvs
  | Option.none =>
      .pdict (setKey (setKey (setKey kvs "status" (.pstr "SYSTEM_ERROR"))
                "message" (.pstr "Missing status field in LLM response"))
              "rule_name" (.pstr ruleName))

/-- The dictionary-coercion step of the timing checker: accept a dict, unwrap
a non-empty list whose first element is a dict (then still inject a missing
`status`), and reject everything else as invalid format. -/
def normalizeTimingResult (result : PyVal) : PyVal :=
  match result with
  | .pdict kvs => ensureStatus "Flight Ticket Timing" kvs
  | .plist (first :: _) =>
      match first with
      | .pdict kvs => ensureStatus "Flight Ticket Timing" kvs
      | _ => invalidFormatDict "Flight Ticket Timing" result
  | other => invalidFormatDict "Flight Ticket Timing" other

/-- The dictionary-coercion step of the identity checker: no list unwrapping —
every non-dict parsed value is an invalid format. -/
def normalizeIdentityResult (result : PyVal) : PyVal :=
  match result with
  | .pdict kvs => ensureStatus "Passenger Identity" kvs
  | other => invalidFormatDict "Passenger Identity" other

/-- `TimingAgent.check_timing_compliance`, with the collaborator call and
`json.loads` abstracted.  The prompt assembly does not influence the returned
value, so the collaborator behaviour is summarised by `outcome`. -/
def checkTimingCompliance (jsonLoads : String → Except String PyVal)
    (outcome : LLMOutcome) : PyVal :=
  match outcome with
  | .failure m => llmCallErrorDict "Flight Ticket Timing" m
  | .success content =>
      match parsedContent jsonLoads content with
      | .error m => jsonParseErrorDict "Flight Ticket Timing" m content
      | .ok result => normalizeTimingResult result

/-- `IdentityAgent.check_passenger_identity`. -/
def checkPassengerIdentity (jsonLoads : String → Except String PyVal)
    (outcome : LLMOutcome) : PyVal :=
  match outcome with
  | .failure m => llmCallErrorDict "Passenger Identity" m
  | .success content =>
      match parsedContent jsonLoads content with
      | .error m => jsonParseErrorDict "Passenger Identity" m content
      | .ok result => normalizeIdentityResult result

-- =========================================================================
-- Route data model and the Route checker (src/agents/route_agent.py)
-- =========================================================================

/-- One entry of a route's `carriers` list (`{iata, name}`); the code reads
both fields with `.get`, so each is optional. -/
structure Carrier where
  iata : Option String
  name : Option String
deriving DecidableEq

/-- One entry of an airport's `routes` list (`{iata, km, min, carriers}`). -/
structure RouteEntry where
  iata : Option String
  km : Option Int
  min : Option Int
  carriers : List Carrier
deriving DecidableEq

/-- One airport record of the remote dataset; `routes` read via
`.get("routes", [])`. -/
structure Airport where
  routes : Option (List RouteEntry)
deriving DecidableEq

/-- The remote route dataset: JSON object keyed by upper-cased IATA code. -/
abbrev Dataset := List (String × Airport)

/-- Dict lookup in the dataset (`airport in route_data` / `route_data[airport]`). -/
def assocFind (d : Dataset) (k : String) : Option Airport :=
  (d.find? (fun kv => kv.1 = k)).map (fun kv => kv.2)

/-- One element of the `route_details` list attached to an availability answer. -/
structure RouteDetailItem where
  distance_km : Int
  flight_time_min : Int
  carrier_name : String
deriving DecidableEq

/-- The dict returned by `check_sunexpress_route_availability`; keys absent in
a given branch are `Option.none`. -/
structure Availability where
  sunexpress_available : Bool
  route : String
  travel_date : String
  origin_served : Bool
  destination_served : Bool
  api_success : Bool
  api_error : Option String
  route_explanation : Option String
  route_details : Option (List RouteDetailItem)
deriving DecidableEq

/-- Scan of the origin's route list: first route whose `iata` equals the
destination (the loop breaks after the first match), then first carrier with
`iata == "XQ"` inside it; returns the availability flag and the
`route_details` item built from that route. -/
def forwardScan (routes : List RouteEntry) (destU : String) : Bool × List RouteDetailItem :=
  match routes.find? (fun r => r.iata = some destU) with
  | Option.none => (false, [])
  | some r =>
      match r.carriers.find? (fun c => c.iata = some "XQ") with
      | Option.none => (false, [])
      | some c => (true, [⟨r.km.getD 0, r.min.getD 0, c.name.getD "SunExpress"⟩])

/-- The reverse-direction check (`destination -> origin`), recorded as
`destination_served` but consulted by nothing else. -/
def reverseServed (d : Dataset) (destU originU : String) : Bool :=
  match assocFind d destU with
  | Option.none => false
  | some a =>
      match (a.routes.getD []).find? (fun r => r.iata = some originU) with
      | Option.none => false
      | some r => ((r.carriers.find? (fun c => c.iata = some "XQ")).isSome)

/-- Python `s.upper()`, character-wise over the character list. -/
def pyUpper (s : String) : String := String.mk (s.data.map Char.toUpper)

/-- Python `repr` of a bool inside an f-string. -/
def pyBoolStr (b : Bool) : String := if b then "True" else "False"

/-- `check_sunexpress_route_availability`: `fetchResult` is the outcome of
`fetch_airline_route_data()` (`Except.error` models the
`{"error": ..., "api_success": False}` return of a failed fetch or parse). -/
def checkSunexpressRouteAvailability (fetchResult : Except String Dataset)
    (origin destination travelDate : String) : Availability :=
  match fetchResult with
  | .error e =>
      ⟨false, origin ++ " -> " ++ destination, travelDate, false, false,
        false, some e, Option.none, Option.none⟩
  | .ok d =>
      match assocFind d (pyUpper origin) with
      | Option.none =>
          ⟨false, origin ++ " -> " ++ destination, travelDate, false, false,
            true, Option.none,
            some ("Origin airport " ++ origin ++ " not found in route data"),
            Option.none⟩
      | some entry =>
          ⟨(forwardScan (entry.routes.getD []) (pyUpper destination)).1,
            origin ++ " -> " ++ destination, travelDate,
            (forwardScan (entry.routes.getD []) (pyUpper destination)).1,
            reverseServed d (pyUpper destination) (pyUpper origin), true, Option.none,
            some ("SunExpress serves " ++ origin ++ " -> " ++ destination
                   ++ ": " ++ pyBoolStr (forwardScan (entry.routes.getD []) (pyUpper destination)).1),
            some (forwardScan (entry.routes.getD []) (pyUpper destination)).2⟩

/-- One flight segment; every field is read with `.get(..., "")`, so all are
optional here and default to the empty string at use sites. -/
structure Flight where
  airlineCode : Option String
  airlineCompanyCode : Option String
  airlineName : Option String
  airlineCompanyName : Option String
  flightNumber : Option String
  flightNo : Option String
  departureAirport : Option String
  departureAirPortCode : Option String
  arrivalAirport : Option String
  arrivalAirPortCode : Option String
  departureDate : Option String
deriving DecidableEq

/-- One reservation (`flights`, `bookingReference` read with `.get`). -/
structure Reservation where
  flights : Option (List Flight)
  bookingReference : Option String
deriving DecidableEq

/-- Python `a or b` over two `.get(..., "")` reads: the first value if it is
present and non-empty, else the second, else `""`. -/
def pyOr (a b : Option String) : String :=
  let x := a.getD ""
  if x = "" then b.getD "" else x

def airlineCodeOf (f : Flight) : String := pyOr f.airlineCode f.airlineCompanyCode

def airlineNameOf (f : Flight) : String := pyOr f.airlineName f.airlineCompanyName

def flightNumberOf (f : Flight) : String := pyOr f.flightNumber f.flightNo

def departureAirportOf (f : Flight) : String :=
  pyOr f.departureAirport f.departureAirPortCode

def arrivalAirportOf (f : Flight) : String :=
  pyOr f.arrivalAirport f.arrivalAirPortCode

def departureDateOf (f : Flight) : String := f.departureDate.getD ""

/-- The characters before the first occurrence of `c`
(`s.split(c)[0]` in Python), over the character list. -/
def takeUntilChar (c : Char) : List Char → List Char
  | [] => []
  | x :: xs => if x = c then [] else x :: takeUntilChar c xs

/-- `departure_date.split("T")[0] if "T" in departure_date else
departure_date.split()[0]` — `split()` takes the first whitespace-delimited
token, and indexing `[0]` raises `IndexError` when the string has no
non-whitespace character (e.g. it is empty). -/
def travelDateOf (dep : String) : Except String String :=
  if dep.data.contains 'T' then .ok (String.mk (takeUntilChar 'T' dep.data))
  else
    match dep.data.dropWhile Char.isWhitespace with
    | [] => .error "list index out of range"
    | l => .ok (String.mk (l.takeWhile (fun c => ¬ c.isWhitespace)))

/-- A `RouteViolation` record (pydantic model, all fields strings). -/
structure RouteViolation where
  flight_number : String
  reason : String
  actual_airline : String
  actual_airline_name : String
  route : String
  travel_date : String
  booking_reference : String
  sunexpress_availability : String
  route_details : String
  policy_rule : String
deriving DecidableEq

/-- One element of `api_errors` (`{"route", "date", "error"}`). -/
structure ApiErrorRecord where
  route : String
  date : String
  error : String
deriving DecidableEq

/-- The violation record appended for a non-SunExpress flight on a served
route, exactly as constructed in `analyze_route_compliance_with_api`. -/
def mkRouteViolation (f : Flight) (bookingRef travelDate : String)
    (avail : Availability) : RouteViolation :=
  let dep := departureAirportOf f
  let arr := arrivalAirportOf f
  let code := airlineCodeOf f
  let name := airlineNameOf f
  let detailText :=
    match avail.route_details with
    | some (d :: _) =>
        "Distance: " ++ toString d.distance_km ++ "km, Flight time: "
          ++ toString d.flight_time_min ++ " minutes"
    | _ => ""
  { flight_number := flightNumberOf f
    reason := "SunExpress operates the route " ++ dep ++ " -> " ++ arr ++ ", but "
                ++ name ++ " (" ++ code ++ ") was used instead. This violates the "
                ++ "SunExpress route optimization policy."
    actual_airline := code
    actual_airline_name := name
    route := dep ++ " -> " ++ arr
    travel_date := travelDate
    booking_reference := bookingRef
    sunexpress_availability := avail.route_explanation.getD "SunExpress operates this route"
    route_details :=
      if detailText = "" then "SunExpress operates " ++ dep ++ " -> " ++ arr ++ " route"
      else detailText
    policy_rule := "SunExpress route availability violation" }

/-- The per-flight step of the loop in `analyze_route_compliance_with_api`.
`fetch n` is the result of the `n`-th call to `fetch_airline_route_data()`
(the function is re-invoked for every availability check, so outcomes may
differ between segments); the returned `Nat` is the next call index.  An
`Except.error` is the `IndexError` escaping from the travel-date extraction. -/
def stepFlight (fetch : Nat → Except String Dataset) (n : Nat) (bookingRef : String)
    (f : Flight) : Except String (List RouteViolation × List ApiErrorRecord × Nat) :=
  if airlineCodeOf f = "XQ" then .ok ([], [], n)
  else
    match travelDateOf (departureDateOf f) with
    | .error e => .error e
    | .ok td =>
        let avail := checkSunexpressRouteAvailability (fetch n)
          (departureAirportOf f) (arrivalAirportOf f) td
        if avail.api_success = false then
          .ok ([], [⟨departureAirportOf f ++ " -> " ++ arrivalAirportOf f, td,
                     avail.api_error.getD "Unknown API error"⟩], n + 1)
        else if avail.sunexpress_available then
          .ok ([mkRouteViolation f bookingRef td avail], [], n + 1)
        else .ok ([], [], n + 1)

/-- The flights of all reservations in iteration order, each paired with its
reservation's booking reference. -/
def flatPairs (rs : List Reservation) : List (String × Flight) :=
  (rs.map (fun r => (r.flights.getD []).map
    (fun f => (r.bookingReference.getD "", f)))).flatten

/-- The double loop of `analyze_route_compliance_with_api`, accumulating the
`violations` and `api_errors` lists in order. -/
def processFlights (fetch : Nat → Except String Dataset) (n : Nat) :
    List (String × Flight) → Except String (List RouteViolation × List ApiErrorRecord)
  | [] => .ok ([], [])
  | (br, f) :: rest =>
      match stepFlight fetch n br f with
      | .error e => .error e
      | .ok (vs, es, n2) =>
          match processFlights fetch n2 rest with
          | .error e => .error e
          | .ok (vs2, es2) => .ok (vs ++ vs2, es ++ es2)

/-- `RouteDetails` (pydantic). -/
structure RouteDetails where
  violations : List RouteViolation
  data_errors : Option (List ApiErrorRecord)
  note : Option String
deriving DecidableEq

/-- `RouteComplianceResult` (pydantic). -/
structure RouteComplianceResult where
  rule_name : String
  status : String
  message : String
  details : RouteDetails
deriving DecidableEq

/-- `analyze_route_compliance_with_api`; `Except.error` models the function
raising (only possible from the travel-date extraction). -/
def analyzeRouteComplianceWithApi (fetch : Nat → Except String Dataset)
    (flightReservations : List Reservation) : Except String RouteComplianceResult :=
  match processFlights fetch 0 (flatPairs flightReservations) with
  | .error e => .error e
  | .ok (violations, apiErrors) =>
      if apiErrors.isEmpty then
        .ok { rule_name := "SunExpress Route Compliance"
              status := if violations.isEmpty then "COMPLIANT" else "NON_COMPLIANT"
              message :=
                if violations.isEmpty then
                  "All flights comply with SunExpress route policy"
                else
                  "Found " ++ toString violations.length
                    ++ " SunExpress route compliance violation(s)"
              details := ⟨violations, Option.none, Option.none⟩ }
      else
        .ok { rule_name := "SunExpress Route Compliance"
              status := if violations.isEmpty then "UNKNOWN" else "NON_COMPLIANT"
              message :=
                if violations.isEmpty then
                  "Could not complete route compliance check due to data issues on "
                    ++ toString apiErrors.length ++ " route(s)."
                else
                  "Found " ++ toString violations.length
                    ++ " SunExpress route compliance violation(s). Note: "
                    ++ toString apiErrors.length
                    ++ " route(s) could not be checked due to data issues."
              details :=
                ⟨violations, some apiErrors,
                  some ("Route verification failed for " ++ toString apiErrors.length
                         ++ " route(s): "
                         ++ String.intercalate "; "
                              (apiErrors.map (fun e2 =>
                                e2.route ++ " on " ++ e2.date ++ ": " ++ e2.error)))⟩ }

/-- `model_dump()` of a `RouteViolation`. -/
def dumpViolation (v : RouteViolation) : PyVal :=
  .pdict [("flight_number", .pstr v.flight_number), ("reason", .pstr v.reason),
          ("actual_airline", .pstr v.actual_airline),
          ("actual_airline_name", .pstr v.actual_airline_name),
          ("route", .pstr v.route), ("travel_date", .pstr v.travel_date),
          ("booking_reference", .pstr v.booking_reference),
          ("sunexpress_availability", .pstr v.sunexpress_availability),
          ("route_details", .pstr v.route_details),
          ("policy_rule", .pstr v.policy_rule)]

/-- `model_dump()` of an api-error record. -/
def dumpApiError (e : ApiErrorRecord) : PyVal :=
  .pdict [("route", .pstr e.route), ("date", .pstr e.date), ("error", .pstr e.error)]

/-- `model_dump()` of a `RouteComplianceResult`. -/
def dumpRouteResult (r : RouteComplianceResult) : PyVal :=
  .pdict [("rule_name", .pstr r.rule_name), ("status", .pstr r.status),
          ("message", .pstr r.message),
          ("details", .pdict
            [("violations", .plist (r.details.violations.map dumpViolation)),
             ("data_errors",
               match r.details.data_errors with
               | Option.none => .pnone
               | some es => .plist (es.map dumpApiError)),
             ("note",
               match r.details.note with
               | Option.none => .pnone
               | some s => .pstr s)])]

/-- `RouteAgent.check_route_compliance`: run the analysis, dump the model, and
convert any escaping exception into the `SYSTEM_ERROR` dict. -/
def checkRouteCompliance (fetch : Nat → Except String Dataset)
    (flightReservations : List Reservation) : PyVal :=
  match analyzeRouteComplianceWithApi fetch flightReservations with
  | .ok result => dumpRouteResult result
  | .error e =>
      .pdict [("rule_name", .pstr "SunExpress Route Compliance"),
              ("status", .pstr "SYSTEM_ERROR"),
              ("message", .pstr ("System error during route compliance check: " ++ e)),
              ("details", .pdict [("violations", .plist []),
                                  ("error_type", .pstr "data_error"),
                                  ("error_message", .pstr e)])]

-- =========================================================================
-- Orchestrator / report aggregator (src/agents/orchestrator.py)
-- =========================================================================

/-- The statuses treated as the system-error class by the aggregator. -/
def systemErrorStatuses : List String :=
  ["SYSTEM_ERROR", "json_parse_error", "llm_call_error"]

/-- `isinstance(r, dict) and r.get("status") in cls` — true only when the
result is a dict whose `status` value is a string belonging to `cls`. -/
def statusInClass (r : PyVal) (cls : List String) : Bool :=
  r.isDict &&
    match r.get "status" with
    | some (.pstr s) => cls.contains s
    | _ => false

/-- `isinstance(r, dict) and r.get("status") == target`. -/
def statusEquals (r : PyVal) (target : String) : Bool :=
  r.isDict &&
    match r.get "status" with
    | some (.pstr s) => s == target
    | _ => false

/-- The count-based overall status / summary computation at the end of
`generate_compliance_report`. -/
def overallOf (results : List PyVal) : String × String :=
  let sec := results.countP (fun r => statusInClass r systemErrorStatuses)
  let nc := results.countP (fun r => statusEquals r "NON_COMPLIANT")
  let w := results.countP (fun r => statusEquals r "WARNING")
  if sec > 0 then
    ("SYSTEM_ERROR", "SYSTEM ERROR: " ++ toString sec ++ " system errors occurred")
  else if nc > 0 then
    ("NON_COMPLIANT", "VIOLATION: " ++ toString nc ++ " critical violations found")
  else if w > 0 then
    ("WARNING", "WARNING: " ++ toString w ++ " issues require attention")
  else ("COMPLIANT", "PASSED: All compliance rules satisfied")

/-- One notification delivered to the progress callback
(`current`, `total`, `current_job`, `description`, `icon`). -/
structure ProgressEvent where
  current : Nat
  total : Nat
  current_job : String
  description : String
  icon : String
deriving DecidableEq

/-- The `compliance_checks` table: name, description and icon of the three
checks, in their fixed order. -/
def complianceChecksMeta : List (String × String × String) :=
  [("Flight Ticket Timing",
    "Checking if flight times are within approved travel period", "⏰"),
   ("Passenger Identity",
    "Verifying passenger identities match approval records", "👤"),
   ("SunExpress Route Compliance",
    "Checking if SunExpress operates routes but alternative airlines were used", "✈️")]

/-- The loop of `generate_compliance_report`: for each check, notify the
callback (when supplied) before executing it, then collect its result.  The
returned event list is everything the observer was notified with. -/
def runChecks (hasCallback : Bool) (total : Nat) :
    Nat → List ((String × String × String) × PyVal) → List PyVal × List ProgressEvent
  | _, [] => ([], [])
  | i, (m, r) :: rest =>
      let evs : List ProgressEvent :=
        if hasCallback then [⟨i + 1, total, m.1, m.2.1, m.2.2⟩] else []
      let out := runChecks hasCallback total (i + 1) rest
      (r :: out.1, evs ++ out.2)

/-- `ComplianceAgent.generate_compliance_report`, with each checker's result
supplied as a value (the checks share no data, and each check method's result
is what the loop appends); returns the report dict together with the full
sequence of progress notifications. -/
def generateComplianceReport (timingResult identityResult routeResult : PyVal)
    (hasCallback : Bool) : PyVal × List ProgressEvent :=
  let paired := complianceChecksMeta.zip [timingResult, identityResult, routeResult]
  let out := runChecks hasCallback complianceChecksMeta.length 0 paired
  let agg := overallOf out.1
  (.pdict [("overall_status", .pstr agg.1), ("results", .plist out.1),
           ("summary", .pstr agg.2)], out.2)

-- =========================================================================
-- Spec-side aggregation (for the refinement comparison in C1)
-- =========================================================================

/-- The aggregation precedence exactly as the spec words it (§4.4): first
match wins — any system-error-class status, else any `NON_COMPLIANT`, else
any `WARNING`, else `COMPLIANT`. -/
def specOverallPrecedence (statuses : List String) : String :=
  if statuses.any (fun s => systemErrorStatuses.contains s) then "SYSTEM_ERROR"
  else if statuses.any (fun s => s == "NON_COMPLIANT") then "NON_COMPLIANT"
  else if statuses.any (fun s => s == "WARNING") then "WARNING"
  else "COMPLIANT"

-- =========================================================================
-- Helper lemmas about the normalization layer
-- =========================================================================

theorem ensureStatus_isDict (rn : String) (kvs : List (String × PyVal)) :
    (ensureStatus rn kvs).isDict = true := by
  unfold ensureStatus
  cases h : dictFind kvs "status" <;> simp [PyVal.isDict]

theorem ensureStatus_hasStatus (rn : String) (kvs : List (String × PyVal)) :
    (ensureStatus rn kvs).get "status" ≠ Option.none := by
  unfold ensureStatus
  cases h : dictFind kvs "status" with
  | none =>
      simp only [PyVal.get]
      rw [dictFind_setKey_ne _ _ _ _ (by decide),
          dictFind_setKey_ne _ _ _ _ (by decide),
          dictFind_setKey_self]
      simp
  | some v => simp [PyVal.get, h]

theorem normalizeTiming_shape (result : PyVal) :
    (normalizeTimingResult result).isDict = true
      ∧ (normalizeTimingResult result).get "status" ≠ Option.none := by
  cases result with
  | pdict kvs => exact ⟨ensureStatus_isDict _ _, ensureStatus_hasStatus _ _⟩
  | plist xs =>
      cases xs with
      | nil =>
          exact ⟨rfl, by simp [normalizeTimingResult, invalidFormatDict, PyVal.get,
                               dictFind, List.find?]⟩
      | cons first rest =>
          cases first <;>
            first
              | exact ⟨ensureStatus_isDict _ _, ensureStatus_hasStatus _ _⟩
              | exact ⟨rfl, by simp [normalizeTimingResult, invalidFormatDict,
                                     PyVal.get, dictFind, List.find?]⟩
  | pnone =>
      exact ⟨rfl, by simp [normalizeTimingResult, invalidFormatDict, PyVal.get,
                           dictFind, List.find?]⟩
  | pbool b =>
      exact ⟨rfl, by simp [normalizeTimingResult, invalidFormatDict, PyVal.get,
                           dictFind, List.find?]⟩
  | pint n =>
      exact ⟨rfl, by simp [normalizeTimingResult, invalidFormatDict, PyVal.get,
                           dictFind, List.find?]⟩
  | pstr s =>
      exact ⟨rfl, by simp [normalizeTimingResult, invalidFormatDict, PyVal.get,
                           dictFind, List.find?]⟩

theorem normalizeIdentity_shape (result : PyVal) :
    (normalizeIdentityResult result).isDict = true
      ∧ (normalizeIdentityResult result).get "status" ≠ Option.none := by
  cases result <;>
    first
      | exact ⟨ensureStatus_isDict _ _, ensureStatus_hasStatus _ _⟩
      | exact ⟨rfl, by simp [normalizeIdentityResult, invalidFormatDict, PyVal.get,
                             dictFind, List.find?]⟩

theorem checkTiming_shape (jl : String → Except String PyVal) (oc : LLMOutcome) :
    (checkTimingCompliance jl oc).isDict = true
      ∧ (checkTimingCompliance jl oc).get "status" ≠ Option.none := by
  cases oc with
  | failure m =>
      exact ⟨rfl, by simp [checkTimingCompliance, llmCallErrorDict, PyVal.get,
                           dictFind, List.find?]⟩
  | success content =>
      have hstep : checkTimingCompliance jl (.success content)
          = (match parsedContent jl content with
             | .error m => jsonParseErrorDict "Flight Ticket Timing" m content
             | .ok result => normalizeTimingResult result) := rfl
      rw [hstep]
      cases hp : parsedContent jl content with
      | error m =>
          exact ⟨rfl, by simp [jsonParseErrorDict, PyVal.get, dictFind, List.find?]⟩
      | ok result => exact normalizeTiming_shape result

theorem checkIdentity_shape (jl : String → Except String PyVal) (oc : LLMOutcome) :
    (checkPassengerIdentity jl oc).isDict = true
      ∧ (checkPassengerIdentity jl oc).get "status" ≠ Option.none := by
  cases oc with
  | failure m =>
      exact ⟨rfl, by simp [checkPassengerIdentity, llmCallErrorDict, PyVal.get,
                           dictFind, List.find?]⟩
  | success content =>
      have hstep : checkPassengerIdentity jl (.success content)
          = (match parsedContent jl content with
             | .error m => jsonParseErrorDict "Passenger Identity" m content
             | .ok result => normalizeIdentityResult result) := rfl
      rw [hstep]
      cases hp : parsedContent jl content with
      | error m =>
          exact ⟨rfl, by simp [jsonParseErrorDict, PyVal.get, dictFind, List.find?]⟩
      | ok result => exact normalizeIdentity_shape result

theorem checkRoute_shape (fetch : Nat → Except String Dataset)
    (rs : List Reservation) :
    (checkRouteCompliance fetch rs).isDict = true
      ∧ (checkRouteCompliance fetch rs).get "status" ≠ Option.none := by
  unfold checkRouteCompliance
  cases h : analyzeRouteComplianceWithApi fetch rs with
  | error e => exact ⟨rfl, by simp [PyVal.get, dictFind, List.find?]⟩
  | ok result =>
      exact ⟨rfl, by simp [dumpRouteResult, PyVal.get, dictFind, List.find?]⟩

-- =========================================================================
-- Concrete sample data for witnesses
-- =========================================================================

/-- A non-SunExpress segment AYT → FRA with a well-formed departure timestamp. -/
def tkFlight : Flight :=
  ⟨some "TK", Option.none, some "Turkish Airlines", Option.none, some "TK123",
    Option.none, some "AYT", Option.none, some "FRA", Option.none,
    some "2025-06-24T07:30:00"⟩

/-- The same segment with the departure timestamp absent. -/
def tkFlightNoDate : Flight := { tkFlight with departureDate := Option.none }

/-- The same segment flown by the reference carrier, identified through the
alternate field name `airlineCompanyCode`. -/
def xqFlightAlt : Flight :=
  { tkFlight with airlineCode := Option.none, airlineCompanyCode := some "XQ" }

def tkReservation : Reservation := ⟨some [tkFlight], some "BR1"⟩

def badDateReservation : Reservation := ⟨some [tkFlightNoDate], some "BR1"⟩

/-- Dataset in which XQ serves AYT → FRA but not the reverse direction. -/
def ds1 : Dataset :=
  [("AYT", ⟨some [⟨some "FRA", some 1700, some 150, [⟨some "XQ", some "SunExpress"⟩]⟩]⟩),
   ("FRA", ⟨some []⟩)]

/-- Same forward data as `ds1`, but the reverse direction is also served. -/
def ds2 : Dataset :=
  [("AYT", ⟨some [⟨some "FRA", some 1700, some 150, [⟨some "XQ", some "SunExpress"⟩]⟩]⟩),
   ("FRA", ⟨some [⟨some "AYT", some 1700, some 150, [⟨some "XQ", some "SunExpress"⟩]⟩]⟩)]

-- =========================================================================
-- Claim C4
-- =========================================================================

/-- C4: every value returned by the three checkers' check methods is a dict
containing a `status` key, and a collaborator response that parses to a dict
lacking `status` is returned as that dict with `status = SYSTEM_ERROR`, an
explanatory `message`, and the rule name written into `rule_name`. -/
theorem checker_results_always_have_status :
    (∀ (jl : String → Except String PyVal) (oc : LLMOutcome),
        (checkTimingCompliance jl oc).isDict = true
          ∧ (checkTimingCompliance jl oc).get "status" ≠ Option.none)
    ∧ (∀ (jl : String → Except String PyVal) (oc : LLMOutcome),
        (checkPassengerIdentity jl oc).isDict = true
          ∧ (checkPassengerIdentity jl oc).get "status" ≠ Option.none)
    ∧ (∀ (fetch : Nat → Except String Dataset) (rs : List Reservation),
        (checkRouteCompliance fetch rs).isDict = true
          ∧ (checkRouteCompliance fetch rs).get "status" ≠ Option.none)
    ∧ (∀ (jl : String → Except String PyVal) (content : PyVal)
         (kvs : List (String × PyVal)),
        parsedContent jl content = .ok (.pdict kvs) →
        dictFind kvs "status" = Option.none →
        checkTimingCompliance jl (.success content)
          = .pdict (setKey (setKey (setKey kvs "status" (.pstr "SYSTEM_ERROR"))
                      "message" (.pstr "Missing status field in LLM response"))
                    "rule_name" (.pstr "Flight Ticket Timing")))
    ∧ (∀ (jl : String → Except String PyVal) (content : PyVal)
         (kvs : List (String × PyVal)),
        parsedContent jl content = .ok (.pdict kvs) →
        dictFind kvs "status" = Option.none →
        checkPassengerIdentity jl (.success content)
          = .pdict (setKey (setKey (setKey kvs "status" (.pstr "SYSTEM_ERROR"))
                      "message" (.pstr "Missing status field in LLM response"))
                    "rule_name" (.pstr "Passenger Identity"))) := by
  refine ⟨checkTiming_shape, checkIdentity_shape, checkRoute_shape, ?_, ?_⟩
  · intro jl content kvs hp hs
    have hstep : checkTimingCompliance jl (.success content)
        = (match parsedContent jl content with
           | .error m => jsonParseErrorDict "Flight Ticket Timing" m content
           | .ok result => normalizeTimingResult result) := rfl
    rw [hstep, hp]
    show ensureStatus "Flight Ticket Timing" kvs = _
    unfold ensureStatus
    rw [hs]
  · intro jl content kvs hp hs
    have hstep : checkPassengerIdentity jl (.success content)
        = (match parsedContent jl content with
           | .error m => jsonParseErrorDict "Passenger Identity" m content
           | .ok result => normalizeIdentityResult result) := rfl
    rw [hstep, hp]
    show ensureStatus "Passenger Identity" kvs = _
    unfold ensureStatus
    rw [hs]

/-- Witness for C4 at a concrete status-less dict response. -/
theorem checker_results_always_have_status_witness :
    parsedContent (fun _ => .error "Expecting value") (.pdict [("message", .pstr "hello")])
        = .ok (.pdict [("message", .pstr "hello")])
    ∧ dictFind [("message", .pstr "hello")] "status" = Option.none
    ∧ checkTimingCompliance (fun _ => .error "Expecting value")
          (.success (.pdict [("message", .pstr "hello")]))
        = .pdict [("message", .pstr "Missing status field in LLM response"),
                  ("status", .pstr "SYSTEM_ERROR"),
                  ("rule_name", .pstr "Flight Ticket Timing")]
    ∧ checkPassengerIdentity (fun _ => .error "Expecting value")
          (.success (.pdict [("message", .pstr "hello")]))
        = .pdict [("message", .pstr "Missing status field in LLM response"),
                  ("status", .pstr "SYSTEM_ERROR"),
                  ("rule_name", .pstr "Passenger Identity")] :=
  ⟨rfl, rfl,
    checker_results_always_have_status.2.2.2.1 (fun _ => .error "Expecting value")
      (.pdict [("message", .pstr "hello")]) [("message", .pstr "hello")] rfl rfl,
    checker_results_always_have_status.2.2.2.2 (fun _ => .error "Expecting value")
      (.pdict [("message", .pstr "hello")]) [("message", .pstr "hello")] rfl rfl⟩

-- =========================================================================
-- Claim C5
-- =========================================================================

/-- C5 counterexample: the Identity checker, given a collaborator value that
is a sequence containing a mapping, substitutes `SYSTEM_ERROR` instead of
taking the first mapping; the Timing checker does the same when the mapping
is not the sequence's first element. -/
theorem identity_checker_rejects_wrapped_list :
    (checkPassengerIdentity (fun _ => .error "Expecting value")
        (.success (.plist [.pdict [("status", .pstr "COMPLIANT")]]))).get "status"
      = some (.pstr "SYSTEM_ERROR")
    ∧ (checkTimingCompliance (fun _ => .error "Expecting value")
        (.success (.plist [.pstr "noise", .pdict [("status", .pstr "COMPLIANT")]]))).get "status"
      = some (.pstr "SYSTEM_ERROR") := ⟨rfl, rfl⟩

/-- C5 (amended): only the Timing checker tolerates a list-wrapped answer, and
only when the list's first element is a mapping (which is then normalized as
usual); the Identity checker maps every non-mapping parsed value — lists
included — to the invalid-format `SYSTEM_ERROR` result. -/
theorem timing_unwraps_first_mapping_identity_does_not :
    (∀ (jl : String → Except String PyVal) (content : PyVal)
       (kvs : List (String × PyVal)) (rest : List PyVal),
        parsedContent jl content = .ok (.plist (.pdict kvs :: rest)) →
        checkTimingCompliance jl (.success content)
          = ensureStatus "Flight Ticket Timing" kvs)
    ∧ (∀ (jl : String → Except String PyVal) (content v : PyVal),
        parsedContent jl content = .ok v → v.isDict = false →
        checkPassengerIdentity jl (.success content)
          = invalidFormatDict "Passenger Identity" v) := by
  constructor
  · intro jl content kvs rest hp
    have hstep : checkTimingCompliance jl (.success content)
        = (match parsedContent jl content with
           | .error m => jsonParseErrorDict "Flight Ticket Timing" m content
           | .ok result => normalizeTimingResult result) := rfl
    rw [hstep, hp]
    rfl
  · intro jl content v hp hv
    have hstep : checkPassengerIdentity jl (.success content)
        = (match parsedContent jl content with
           | .error m => jsonParseErrorDict "Passenger Identity" m content
           | .ok result => normalizeIdentityResult result) := rfl
    rw [hstep, hp]
    cases v with
    | pdict kvs => simp [PyVal.isDict] at hv
    | pnone => rfl
    | pbool b => rfl
    | pint n => rfl
    | pstr s => rfl
    | plist xs => rfl

/-- Witness for the amended C5 at concrete wrapped responses. -/
theorem timing_unwraps_first_mapping_identity_does_not_witness :
    parsedContent (fun _ => .error "Expecting value")
        (.plist [.pdict [("status", .pstr "COMPLIANT")]])
      = .ok (.plist [.pdict [("status", .pstr "COMPLIANT")]])
    ∧ checkTimingCompliance (fun _ => .error "Expecting value")
        (.success (.plist [.pdict [("status", .pstr "COMPLIANT")]]))
      = ensureStatus "Flight Ticket Timing" [("status", .pstr "COMPLIANT")]
    ∧ (PyVal.plist [.pdict [("status", .pstr "COMPLIANT")]]).isDict = false
    ∧ checkPassengerIdentity (fun _ => .error "Expecting value")
        (.success (.plist [.pdict [("status", .pstr "COMPLIANT")]]))
      = invalidFormatDict "Passenger Identity"
          (.plist [.pdict [("status", .pstr "COMPLIANT")]]) :=
  ⟨rfl,
    timing_unwraps_first_mapping_identity_does_not.1 (fun _ => .error "Expecting value")
      (.plist [.pdict [("status", .pstr "COMPLIANT")]])
      [("status", .pstr "COMPLIANT")] [] rfl,
    rfl,
    timing_unwraps_first_mapping_identity_does_not.2 (fun _ => .error "Expecting value")
      (.plist [.pdict [("status", .pstr "COMPLIANT")]])
      (.plist [.pdict [("status", .pstr "COMPLIANT")]]) rfl rfl⟩

-- =========================================================================
-- Claim C6
-- =========================================================================

/-- C6: for every collaborator behaviour each checker returns a result dict
(never letting one of the modelled exceptions escape): a collaborator call
failure yields `llm_call_error`, an unparseable string response yields
`json_parse_error` with the raw response preserved verbatim in
`details.raw_response`, and an exception inside the route analysis is
converted to `SYSTEM_ERROR`. -/
theorem checkers_never_propagate_exceptions :
    ∀ (jl : String → Except String PyVal) (oc : LLMOutcome)
      (fetch : Nat → Except String Dataset) (rs : List Reservation),
      ((checkTimingCompliance jl oc).isDict = true
        ∧ (checkPassengerIdentity jl oc).isDict = true
        ∧ (checkRouteCompliance fetch rs).isDict = true)
    ∧ (∀ m, oc = .failure m →
        (checkTimingCompliance jl oc).get "status" = some (.pstr "llm_call_error")
        ∧ (checkPassengerIdentity jl oc).get "status" = some (.pstr "llm_call_error"))
    ∧ (∀ s m, oc = .success (.pstr s) → jl s = .error m →
        (checkTimingCompliance jl oc).get "status" = some (.pstr "json_parse_error")
        ∧ ((checkTimingCompliance jl oc).get "details").bind
            (fun d => d.get "raw_response") = some (.pstr s)
        ∧ (checkPassengerIdentity jl oc).get "status" = some (.pstr "json_parse_error")
        ∧ ((checkPassengerIdentity jl oc).get "details").bind
            (fun d => d.get "raw_response") = some (.pstr s))
    ∧ (∀ e, analyzeRouteComplianceWithApi fetch rs = .error e →
        (checkRouteCompliance fetch rs).get "status" = some (.pstr "SYSTEM_ERROR")) := by
  intro jl oc fetch rs
  refine ⟨⟨(checkTiming_shape jl oc).1, (checkIdentity_shape jl oc).1,
           (checkRoute_shape fetch rs).1⟩, ?_, ?_, ?_⟩
  · intro m hm
    subst hm
    exact ⟨rfl, rfl⟩
  · intro s m hs hjl
    subst hs
    have ht : checkTimingCompliance jl (.success (.pstr s))
        = jsonParseErrorDict "Flight Ticket Timing" m (.pstr s) := by
      have hstep : checkTimingCompliance jl (.success (.pstr s))
          = (match jl s with
             | .error m2 => jsonParseErrorDict "Flight Ticket Timing" m2 (.pstr s)
             | .ok result => normalizeTimingResult result) := rfl
      rw [hstep]
      simp only [hjl]
    have hi : checkPassengerIdentity jl (.success (.pstr s))
        = jsonParseErrorDict "Passenger Identity" m (.pstr s) := by
      have hstep : checkPassengerIdentity jl (.success (.pstr s))
          = (match jl s with
             | .error m2 => jsonParseErrorDict "Passenger Identity" m2 (.pstr s)
             | .ok result => normalizeIdentityResult result) := rfl
      rw [hstep]
      simp only [hjl]
    rw [ht, hi]
    exact ⟨rfl, rfl, rfl, rfl⟩
  · intro e he
    unfold checkRouteCompliance
    rw [he]
    rfl

/-- Witness for C6: a raising collaborator, an unparseable response, and a
route analysis that raises, at concrete inputs. -/
theorem checkers_never_propagate_exceptions_witness :
    (checkTimingCompliance (fun _ => .error "Expecting value")
        (.failure "connection refused")).get
        "status" = some (.pstr "llm_call_error")
    ∧ (checkTimingCompliance (fun _ => .error "Expecting value")
        (.success (.pstr "not json"))).get "status" = some (.pstr "json_parse_error")
    ∧ ((checkTimingCompliance (fun _ => .error "Expecting value")
        (.success (.pstr "not json"))).get "details").bind
          (fun d => d.get "raw_response") = some (.pstr "not json")
    ∧ (checkRouteCompliance (fun _ => .ok ds1) [badDateReservation]).get "status"
        = some (.pstr "SYSTEM_ERROR") :=
  ⟨((checkers_never_propagate_exceptions (fun _ => .error "Expecting value")
      (.failure "connection refused") (fun _ => .ok ds1) []).2.1
        "connection refused" rfl).1,
    ((checkers_never_propagate_exceptions (fun _ => .error "Expecting value")
      (.success (.pstr "not json")) (fun _ => .ok ds1) []).2.2.1
        "not json" "Expecting value" rfl rfl).1,
    ((checkers_never_propagate_exceptions (fun _ => .error "Expecting value")
      (.success (.pstr "not json")) (fun _ => .ok ds1) []).2.2.1
        "not json" "Expecting value" rfl rfl).2.1,
    (checkers_never_propagate_exceptions (fun _ => .error "Expecting value")
      (.failure "x") (fun _ => .ok ds1) [badDateReservation]).2.2.2
        "list index out of range" rfl⟩

-- =========================================================================
-- Helper lemmas for the aggregation claims
-- =========================================================================

/-- A minimal per-rule result carrying just a status. -/
def statusDict (s : String) : PyVal := .pdict [("status", .pstr s)]

theorem countP_pos_iff_any (l : List PyVal) (p : PyVal → Bool) :
    (0 < l.countP p) ↔ l.any p = true := by
  rw [List.any_eq_true]; exact List.countP_pos_iff

theorem specOverallPrecedence_perm (l1 l2 : List String) (h : l1.Perm l2) :
    specOverallPrecedence l1 = specOverallPrecedence l2 := by
  have ha : ∀ p : String → Bool, l1.any p = l2.any p := by
    intro p
    apply Bool.eq_iff_iff.mpr
    rw [List.any_eq_true, List.any_eq_true]
    constructor
    · rintro ⟨a, hm, hp⟩; exact ⟨a, h.mem_iff.mp hm, hp⟩
    · rintro ⟨a, hm, hp⟩; exact ⟨a, h.mem_iff.mpr hm, hp⟩
  unfold specOverallPrecedence
  rw [ha, ha, ha]

theorem overallOf_fst_eq_spec (r1 r2 r3 : PyVal) (s1 s2 s3 : String)
    (h1d : r1.isDict = true) (h1s : r1.get "status" = some (.pstr s1))
    (h2d : r2.isDict = true) (h2s : r2.get "status" = some (.pstr s2))
    (h3d : r3.isDict = true) (h3s : r3.get "status" = some (.pstr s3)) :
    (overallOf [r1, r2, r3]).1 = specOverallPrecedence [s1, s2, s3] := by
  have e1 : ∀ cls, statusInClass r1 cls = cls.contains s1 := by
    intro cls; simp [statusInClass, h1d, h1s]
  have e2 : ∀ cls, statusInClass r2 cls = cls.contains s2 := by
    intro cls; simp [statusInClass, h2d, h2s]
  have e3 : ∀ cls, statusInClass r3 cls = cls.contains s3 := by
    intro cls; simp [statusInClass, h3d, h3s]
  have f1 : ∀ t, statusEquals r1 t = (s1 == t) := by
    intro t; simp [statusEquals, h1d, h1s]
  have f2 : ∀ t, statusEquals r2 t = (s2 == t) := by
    intro t; simp [statusEquals, h2d, h2s]
  have f3 : ∀ t, statusEquals r3 t = (s3 == t) := by
    intro t; simp [statusEquals, h3d, h3s]
  simp only [overallOf, specOverallPrecedence, gt_iff_lt, countP_pos_iff_any,
             List.any_cons, List.any_nil, e1, e2, e3, f1, f2, f3,
             apply_ite (f := Prod.fst)]

-- =========================================================================
-- Claim C1
-- =========================================================================

/-- C1: the overall status of a report over three per-rule results is the
spec's first-match precedence applied to their statuses (hence a pure,
permutation-invariant function of the status multiset), and the three
synthetic examples evaluate as the spec requires. -/
theorem report_overall_status_matches_precedence :
    (∀ (r1 r2 r3 : PyVal) (s1 s2 s3 : String) (b : Bool),
        r1.isDict = true → r1.get "status" = some (.pstr s1) →
        r2.isDict = true → r2.get "status" = some (.pstr s2) →
        r3.isDict = true → r3.get "status" = some (.pstr s3) →
        ((generateComplianceReport r1 r2 r3 b).1).get "overall_status"
          = some (.pstr (specOverallPrecedence [s1, s2, s3])))
    ∧ (∀ l1 l2 : List String, l1.Perm l2 →
        specOverallPrecedence l1 = specOverallPrecedence l2)
    ∧ ((generateComplianceReport (statusDict "COMPLIANT") (statusDict "COMPLIANT")
          (statusDict "COMPLIANT") false).1).get "overall_status"
        = some (.pstr "COMPLIANT")
    ∧ ((generateComplianceReport (statusDict "COMPLIANT") (statusDict "NON_COMPLIANT")
          (statusDict "COMPLIANT") false).1).get "overall_status"
        = some (.pstr "NON_COMPLIANT")
    ∧ ((generateComplianceReport (statusDict "SYSTEM_ERROR") (statusDict "NON_COMPLIANT")
          (statusDict "COMPLIANT") false).1).get "overall_status"
        = some (.pstr "SYSTEM_ERROR") := by
  refine ⟨?_, specOverallPrecedence_perm, rfl, rfl, rfl⟩
  intro r1 r2 r3 s1 s2 s3 b h1d h1s h2d h2s h3d h3s
  have hov : ((generateComplianceReport r1 r2 r3 b).1).get "overall_status"
      = some (.pstr (overallOf [r1, r2, r3]).1) := rfl
  rw [hov, overallOf_fst_eq_spec r1 r2 r3 s1 s2 s3 h1d h1s h2d h2s h3d h3s]

/-- Witness for C1 at concrete status dicts and a concrete permutation. -/
theorem report_overall_status_matches_precedence_witness :
    ((generateComplianceReport (statusDict "COMPLIANT") (statusDict "NON_COMPLIANT")
        (statusDict "WARNING") true).1).get "overall_status"
      = some (.pstr (specOverallPrecedence ["COMPLIANT", "NON_COMPLIANT", "WARNING"]))
    ∧ specOverallPrecedence ["NON_COMPLIANT", "COMPLIANT"]
        = specOverallPrecedence ["COMPLIANT", "NON_COMPLIANT"] :=
  ⟨report_overall_status_matches_precedence.1 (statusDict "COMPLIANT")
      (statusDict "NON_COMPLIANT") (statusDict "WARNING")
      "COMPLIANT" "NON_COMPLIANT" "WARNING" true rfl rfl rfl rfl rfl rfl,
    report_overall_status_matches_precedence.2.1 _ _
      (List.Perm.swap "COMPLIANT" "NON_COMPLIANT" [])⟩

-- =========================================================================
-- Claim C7
-- =========================================================================

/-- C7 counterexample: with a progress observer supplied, one report run
delivers exactly three notifications — one per checker — not the six that a
before-and-after-each-invocation protocol would produce. -/
theorem progress_observer_three_notifications_not_six :
    (generateComplianceReport (statusDict "COMPLIANT") (statusDict "COMPLIANT")
        (statusDict "COMPLIANT") true).2.length = 3
    ∧ ¬ (generateComplianceReport (statusDict "COMPLIANT") (statusDict "COMPLIANT")
        (statusDict "COMPLIANT") true).2.length = 2 * 3 := by
  constructor
  · rfl
  · decide

/-- C7 (amended): when an observer is supplied it is notified exactly once
per checker, before the invocation, with (index, total 3, rule name,
description, icon); with no observer there is no notification, all three
results are still collected in their fixed order, and the report is
identical. -/
theorem progress_observer_notified_before_each_check :
    ∀ (r1 r2 r3 : PyVal),
      (generateComplianceReport r1 r2 r3 true).2 =
        [⟨1, 3, "Flight Ticket Timing",
           "Checking if flight times are within approved travel period", "⏰"⟩,
         ⟨2, 3, "Passenger Identity",
           "Verifying passenger identities match approval records", "👤"⟩,
         ⟨3, 3, "SunExpress Route Compliance",
           "Checking if SunExpress operates routes but alternative airlines were used",
           "✈️"⟩]
      ∧ (generateComplianceReport r1 r2 r3 false).2 = []
      ∧ (generateComplianceReport r1 r2 r3 true).1
          = (generateComplianceReport r1 r2 r3 false).1
      ∧ (∀ b, ((generateComplianceReport r1 r2 r3 b).1).get "results"
          = some (.plist [r1, r2, r3])) :=
  fun _ _ _ => ⟨rfl, rfl, rfl, fun _ => rfl⟩

-- =========================================================================
-- Claim C10
-- =========================================================================

/-- C10: when no per-rule status is in the system-error class nor
`NON_COMPLIANT` nor `WARNING`, the report is `COMPLIANT` with the summary
"PASSED: All compliance rules satisfied" — in particular a Route result that
is `UNKNOWN` because its external data source failed is absorbed into an
overall pass. -/
theorem unknown_rule_status_yields_overall_pass :
    (∀ (r1 r2 r3 : PyVal) (s1 s2 s3 : String) (b : Bool),
        r1.isDict = true → r1.get "status" = some (.pstr s1) →
        r2.isDict = true → r2.get "status" = some (.pstr s2) →
        r3.isDict = true → r3.get "status" = some (.pstr s3) →
        systemErrorStatuses.contains s1 = false →
        (s1 == "NON_COMPLIANT") = false → (s1 == "WARNING") = false →
        systemErrorStatuses.contains s2 = false →
        (s2 == "NON_COMPLIANT") = false → (s2 == "WARNING") = false →
        systemErrorStatuses.contains s3 = false →
        (s3 == "NON_COMPLIANT") = false → (s3 == "WARNING") = false →
        ((generateComplianceReport r1 r2 r3 b).1).get "overall_status"
            = some (.pstr "COMPLIANT")
        ∧ ((generateComplianceReport r1 r2 r3 b).1).get "summary"
            = some (.pstr "PASSED: All compliance rules satisfied"))
    ∧ (checkRouteCompliance (fun _ => .error "network down") [tkReservation]).get
        "status" = some (.pstr "UNKNOWN")
    ∧ ((generateComplianceReport (statusDict "COMPLIANT") (statusDict "COMPLIANT")
          (checkRouteCompliance (fun _ => .error "network down") [tkReservation])
          false).1).get "overall_status" = some (.pstr "COMPLIANT")
    ∧ ((generateComplianceReport (statusDict "COMPLIANT") (statusDict "COMPLIANT")
          (checkRouteCompliance (fun _ => .error "network down") [tkReservation])
          false).1).get "summary"
        = some (.pstr "PASSED: All compliance rules satisfied") := by
  refine ⟨?_, rfl, rfl, rfl⟩
  intro r1 r2 r3 s1 s2 s3 b h1d h1s h2d h2s h3d h3s
  intro hc1 hn1 hw1 hc2 hn2 hw2 hc3 hn3 hw3
  have e1 : ∀ cls, statusInClass r1 cls = cls.contains s1 := by
    intro cls; simp [statusInClass, h1d, h1s]
  have e2 : ∀ cls, statusInClass r2 cls = cls.contains s2 := by
    intro cls; simp [statusInClass, h2d, h2s]
  have e3 : ∀ cls, statusInClass r3 cls = cls.contains s3 := by
    intro cls; simp [statusInClass, h3d, h3s]
  have f1 : ∀ t, statusEquals r1 t = (s1 == t) := by
    intro t; simp [statusEquals, h1d, h1s]
  have f2 : ∀ t, statusEquals r2 t = (s2 == t) := by
    intro t; simp [statusEquals, h2d, h2s]
  have f3 : ∀ t, statusEquals r3 t = (s3 == t) := by
    intro t; simp [statusEquals, h3d, h3s]
  have hagg : overallOf [r1, r2, r3]
      = ("COMPLIANT", "PASSED: All compliance rules satisfied") := by
    simp only [overallOf, List.countP_cons, List.countP_nil, e1, e2, e3, f1, f2, f3,
               hc1, hn1, hw1, hc2, hn2, hw2, hc3, hn3, hw3]
    simp
  have hov : ((generateComplianceReport r1 r2 r3 b).1).get "overall_status"
      = some (.pstr (overallOf [r1, r2, r3]).1) := rfl
  have hsm : ((generateComplianceReport r1 r2 r3 b).1).get "summary"
      = some (.pstr (overallOf [r1, r2, r3]).2) := rfl
  rw [hov, hsm, hagg]
  exact ⟨rfl, rfl⟩

/-- Witness for C10 with an `UNKNOWN` route status among otherwise compliant
results. -/
theorem unknown_rule_status_yields_overall_pass_witness :
    ((generateComplianceReport (statusDict "COMPLIANT") (statusDict "COMPLIANT")
        (statusDict "UNKNOWN") true).1).get "overall_status"
      = some (.pstr "COMPLIANT")
    ∧ ((generateComplianceReport (statusDict "COMPLIANT") (statusDict "COMPLIANT")
        (statusDict "UNKNOWN") true).1).get "summary"
      = some (.pstr "PASSED: All compliance rules satisfied") :=
  unknown_rule_status_yields_overall_pass.1 (statusDict "COMPLIANT")
    (statusDict "COMPLIANT") (statusDict "UNKNOWN")
    "COMPLIANT" "COMPLIANT" "UNKNOWN" true
    rfl rfl rfl rfl rfl rfl rfl rfl rfl rfl rfl rfl rfl rfl rfl

-- =========================================================================
-- Helper lemmas for the route claims
-- =========================================================================

/-- The forward-direction availability decision as the code computes it:
look up the origin airport and scan its route list for the destination. -/
def sunexpressForward (d : Dataset) (origin destination : String) : Bool :=
  match assocFind d (pyUpper origin) with
  | Option.none => false
  | some entry => (forwardScan (entry.routes.getD []) (pyUpper destination)).1

theorem checkAvail_ok_eq (d : Dataset) (o a t : String) :
    checkSunexpressRouteAvailability (.ok d) o a t
      = (match assocFind d (pyUpper o) with
         | Option.none =>
             ⟨false, o ++ " -> " ++ a, t, false, false, true, Option.none,
               some ("Origin airport " ++ o ++ " not found in route data"),
               Option.none⟩
         | some entry =>
             ⟨(forwardScan (entry.routes.getD []) (pyUpper a)).1, o ++ " -> " ++ a, t,
               (forwardScan (entry.routes.getD []) (pyUpper a)).1,
               reverseServed d (pyUpper a) (pyUpper o), true, Option.none,
               some ("SunExpress serves " ++ o ++ " -> " ++ a ++ ": "
                      ++ pyBoolStr (forwardScan (entry.routes.getD []) (pyUpper a)).1),
               some (forwardScan (entry.routes.getD []) (pyUpper a)).2⟩) := by
  unfold checkSunexpressRouteAvailability
  rfl

theorem stepFlight_congr (d1 d2 : Dataset) (n : Nat) (br : String) (f : Flight)
    (h : assocFind d1 (pyUpper (departureAirportOf f))
          = assocFind d2 (pyUpper (departureAirportOf f))) :
    stepFlight (fun _ => .ok d1) n br f = stepFlight (fun _ => .ok d2) n br f := by
  unfold stepFlight
  by_cases hxq : airlineCodeOf f = "XQ"
  · simp only [if_pos hxq]
  · simp only [if_neg hxq]
    cases htd : travelDateOf (departureDateOf f) with
    | error e => rfl
    | ok td =>
        simp only [checkAvail_ok_eq, h]
        cases hfind : assocFind d2 (pyUpper (departureAirportOf f)) with
        | none => rfl
        | some entry => simp [mkRouteViolation]

theorem processFlights_congr (d1 d2 : Dataset) :
    ∀ (l : List (String × Flight)),
      (∀ p ∈ l, assocFind d1 (pyUpper (departureAirportOf p.2))
            = assocFind d2 (pyUpper (departureAirportOf p.2))) →
      ∀ n, processFlights (fun _ => .ok d1) n l = processFlights (fun _ => .ok d2) n l := by
  intro l
  induction l with
  | nil => intro _ n; rfl
  | cons hd tl ih =>
      intro h n
      obtain ⟨br, f⟩ := hd
      have h1 := h (br, f) (List.mem_cons_self _ _)
      have h2 := fun p hp => h p (List.mem_cons_of_mem _ hp)
      unfold processFlights
      rw [stepFlight_congr d1 d2 n br f h1]
      simp only [ih h2]

-- =========================================================================
-- Claim C2
-- =========================================================================

/-- C2: a segment whose airline code (under either naming convention)
resolves to "XQ" contributes no violation; a segment flown by a different
carrier on a route the dataset shows XQ serving forward contributes exactly
one violation whose `actual_airline` is that segment's airline code; and the
analysis's violation list is exactly the concatenation of the per-segment
contributions. -/
theorem route_violation_per_segment :
    ∀ (d : Dataset) (br : String) (f : Flight),
      (∀ n, airlineCodeOf f = "XQ" → stepFlight (fun _ => .ok d) n br f = .ok ([], [], n))
    ∧ (∀ n td, airlineCodeOf f ≠ "XQ" →
        travelDateOf (departureDateOf f) = .ok td →
        sunexpressForward d (departureAirportOf f) (arrivalAirportOf f) = true →
        stepFlight (fun _ => .ok d) n br f
          = .ok ([mkRouteViolation f br td
                    (checkSunexpressRouteAvailability (.ok d)
                      (departureAirportOf f) (arrivalAirportOf f) td)], [], n + 1)
        ∧ (mkRouteViolation f br td
              (checkSunexpressRouteAvailability (.ok d)
                (departureAirportOf f) (arrivalAirportOf f) td)).actual_airline
            = airlineCodeOf f)
    ∧ (∀ (rs : List Reservation) (res : RouteComplianceResult),
        analyzeRouteComplianceWithApi (fun _ => .ok d) rs = .ok res →
        ∃ p, processFlights (fun _ => .ok d) 0 (flatPairs rs) = .ok p
          ∧ res.details.violations = p.1) := by
  intro d br f
  refine ⟨?_, ?_, ?_⟩
  · intro n hxq
    unfold stepFlight
    rw [if_pos hxq]
  · intro n td hxq htd hfwd
    refine ⟨?_, rfl⟩
    unfold stepFlight
    rw [if_neg hxq]
    unfold sunexpressForward at hfwd
    simp only [htd, checkAvail_ok_eq]
    cases hfind : assocFind d (pyUpper (departureAirportOf f)) with
    | none => rw [hfind] at hfwd; exact absurd hfwd (by simp)
    | some entry =>
        rw [hfind] at hfwd
        have hfwd2 : (forwardScan (entry.routes.getD [])
            (pyUpper (arrivalAirportOf f))).1 = true := hfwd
        simp only [hfwd2]
        simp
  · intro rs res h
    unfold analyzeRouteComplianceWithApi at h
    cases hp : processFlights (fun _ => .ok d) 0 (flatPairs rs) with
    | error e => rw [hp] at h; exact absurd h (by simp)
    | ok p =>
        rw [hp] at h
        obtain ⟨vs, es⟩ := p
        refine ⟨(vs, es), rfl, ?_⟩
        cases he : es.isEmpty with
        | true =>
            simp only [he, eq_self_iff_true, if_true] at h
            rw [Except.ok.injEq] at h
            subst h
            rfl
        | false =>
            simp only [he, Bool.false_eq_true, if_false] at h
            rw [Except.ok.injEq] at h
            subst h
            rfl

/-- Witness for C2: XQ segment via the alternate field name is skipped; a TK
segment on the served AYT → FRA route yields exactly its one violation; the
full analysis of an empty reservation list agrees with the concatenation. -/
theorem route_violation_per_segment_witness :
    stepFlight (fun _ => .ok ds1) 0 "BR1" xqFlightAlt = .ok ([], [], 0)
    ∧ stepFlight (fun _ => .ok ds1) 0 "BR1" tkFlight
        = .ok ([mkRouteViolation tkFlight "BR1" "2025-06-24"
                  (checkSunexpressRouteAvailability (.ok ds1) "AYT" "FRA" "2025-06-24")],
               [], 1)
    ∧ (mkRouteViolation tkFlight "BR1" "2025-06-24"
          (checkSunexpressRouteAvailability (.ok ds1) "AYT" "FRA" "2025-06-24")).actual_airline
        = "TK"
    ∧ ∃ p, processFlights (fun _ => .ok ds1) 0 (flatPairs []) = .ok p
        ∧ (RouteComplianceResult.mk "SunExpress Route Compliance" "COMPLIANT"
            "All flights comply with SunExpress route policy"
            ⟨[], Option.none, Option.none⟩).details.violations = p.1 :=
  ⟨(route_violation_per_segment ds1 "BR1" xqFlightAlt).1 0 rfl,
    ((route_violation_per_segment ds1 "BR1" tkFlight).2.1 0 "2025-06-24"
      (by decide) rfl rfl).1,
    ((route_violation_per_segment ds1 "BR1" tkFlight).2.1 0 "2025-06-24"
      (by decide) rfl rfl).2,
    (route_violation_per_segment ds1 "BR1" tkFlight).2.2 []
      (RouteComplianceResult.mk "SunExpress Route Compliance" "COMPLIANT"
        "All flights comply with SunExpress route policy"
        ⟨[], Option.none, Option.none⟩) rfl⟩

-- =========================================================================
-- Claim C3
-- =========================================================================

/-- C3: when at least one segment's availability lookup failed, the Route
result records exactly those failures in `details.data_errors`, and its
status is `UNKNOWN` precisely when no violation was found on the remaining
segments, `NON_COMPLIANT` otherwise. -/
theorem route_data_errors_fold_into_status :
    ∀ (fetch : Nat → Except String Dataset) (rs : List Reservation)
      (vs : List RouteViolation) (es : List ApiErrorRecord),
      processFlights fetch 0 (flatPairs rs) = .ok (vs, es) → es ≠ [] →
      ∃ res, analyzeRouteComplianceWithApi fetch rs = .ok res
        ∧ res.details.data_errors = some es
        ∧ res.status = (if vs.isEmpty then "UNKNOWN" else "NON_COMPLIANT")
        ∧ res.details.violations = vs := by
  intro fetch rs vs es hp hes
  have hne : es.isEmpty = false := by
    cases es with
    | nil => exact absurd rfl hes
    | cons a l => rfl
  unfold analyzeRouteComplianceWithApi
  rw [hp]
  simp only [hne, Bool.false_eq_true, if_false]
  exact ⟨_, rfl, rfl, rfl, rfl⟩

/-- Witness for C3: a failing data source over one TK segment yields an
`UNKNOWN` result with the failure recorded. -/
theorem route_data_errors_fold_into_status_witness :
    ∃ res, analyzeRouteComplianceWithApi (fun _ => .error "boom") [tkReservation]
        = .ok res
      ∧ res.details.data_errors = some [⟨"AYT -> FRA", "2025-06-24", "boom"⟩]
      ∧ res.status
          = (if ([] : List RouteViolation).isEmpty then "UNKNOWN" else "NON_COMPLIANT")
      ∧ res.details.violations = [] :=
  route_data_errors_fold_into_status (fun _ => .error "boom") [tkReservation]
    [] [⟨"AYT -> FRA", "2025-06-24", "boom"⟩] rfl (by simp)

-- =========================================================================
-- Claim C9
-- =========================================================================

/-- C9: two datasets agreeing on the origin-airport entry of every analysed
segment produce identical analyses (violations, status and all), however the
reverse-direction entries differ; the reverse check is still computed and
recorded in the availability answer's `destination_served`. -/
theorem reverse_direction_never_affects_verdict :
    (∀ (d1 d2 : Dataset) (rs : List Reservation),
        (∀ p ∈ flatPairs rs,
          assocFind d1 (pyUpper (departureAirportOf p.2))
            = assocFind d2 (pyUpper (departureAirportOf p.2))) →
        analyzeRouteComplianceWithApi (fun _ => .ok d1) rs
          = analyzeRouteComplianceWithApi (fun _ => .ok d2) rs)
    ∧ (∀ (d : Dataset) (o a t : String) (entry : Airport),
        assocFind d (pyUpper o) = some entry →
        (checkSunexpressRouteAvailability (.ok d) o a t).destination_served
          = reverseServed d (pyUpper a) (pyUpper o)) := by
  constructor
  · intro d1 d2 rs h
    unfold analyzeRouteComplianceWithApi
    rw [processFlights_congr d1 d2 (flatPairs rs) h 0]
  · intro d o a t entry hfind
    rw [checkAvail_ok_eq, hfind]

/-- Witness for C9: datasets `ds1` and `ds2` differ exactly in whether the
reverse FRA → AYT leg is served, yet the analysis of a TK booking is
identical; the reverse check is recorded in `destination_served`. -/
theorem reverse_direction_never_affects_verdict_witness :
    analyzeRouteComplianceWithApi (fun _ => .ok ds1) [tkReservation]
      = analyzeRouteComplianceWithApi (fun _ => .ok ds2) [tkReservation]
    ∧ (checkSunexpressRouteAvailability (.ok ds2) "AYT" "FRA" "2025-06-24").destination_served
      = reverseServed ds2 (pyUpper "FRA") (pyUpper "AYT") :=
  ⟨reverse_direction_never_affects_verdict.1 ds1 ds2 [tkReservation] (by decide),
    reverse_direction_never_affects_verdict.2 ds2 "AYT" "FRA" "2025-06-24"
      ⟨some [⟨some "FRA", some 1700, some 150, [⟨some "XQ", some "SunExpress"⟩]⟩]⟩ rfl⟩

-- =========================================================================
-- Claim C8
-- =========================================================================

/-- C8 counterexample: a non-SunExpress segment whose departure timestamp is
absent makes `analyze_route_compliance_with_api` raise `IndexError` ("list
index out of range") at `departure_date.split()[0]`, rather than never
raising; the enclosing check method converts it to `SYSTEM_ERROR`. -/
theorem empty_departure_timestamp_raises :
    analyzeRouteComplianceWithApi (fun _ => .ok ds1) [badDateReservation]
      = .error "list index out of range"
    ∧ checkRouteCompliance (fun _ => .ok ds1) [badDateReservation]
      = .pdict [("rule_name", .pstr "SunExpress Route Compliance"),
                ("status", .pstr "SYSTEM_ERROR"),
                ("message", .pstr
                  "System error during route compliance check: list index out of range"),
                ("details", .pdict [("violations", .plist []),
                                    ("error_type", .pstr "data_error"),
                                    ("error_message", .pstr "list index out of range")])] :=
  ⟨rfl, rfl⟩

theorem stepFlight_ok_of_date (fetch : Nat → Except String Dataset) (n : Nat)
    (br : String) (f : Flight) (td : String)
    (htd : travelDateOf (departureDateOf f) = .ok td) :
    ∃ o, stepFlight fetch n br f = .ok o := by
  unfold stepFlight
  by_cases hxq : airlineCodeOf f = "XQ"
  · rw [if_pos hxq]; exact ⟨_, rfl⟩
  · rw [if_neg hxq]
    simp only [htd]
    by_cases ha : (checkSunexpressRouteAvailability (fetch n) (departureAirportOf f)
        (arrivalAirportOf f) td).api_success = false
    · rw [if_pos ha]; exact ⟨_, rfl⟩
    · rw [if_neg ha]
      by_cases hb : (checkSunexpressRouteAvailability (fetch n) (departureAirportOf f)
          (arrivalAirportOf f) td).sunexpress_available = true
      · rw [if_pos hb]; exact ⟨_, rfl⟩
      · rw [if_neg hb]; exact ⟨_, rfl⟩

/-- C8 (amended): field resolution accepts either naming convention with
missing values defaulting to the empty string; a reference-carrier segment is
skipped before any date handling; the travel date is the portion before the
first T, else the first whitespace-delimited token; the analysis completes
without raising whenever every non-XQ segment's departure timestamp has a T
or a non-whitespace character, and an escaping `IndexError` is converted to
the `SYSTEM_ERROR` result by the check method. -/
theorem route_analysis_field_resolution_and_dates :
    (∀ (fetch : Nat → Except String Dataset) (n : Nat) (br : String) (f : Flight),
        airlineCodeOf f = "XQ" → stepFlight fetch n br f = .ok ([], [], n))
    ∧ (∀ s : String, pyOr Option.none (some s) = s)
    ∧ (∀ (s : String) (b : Option String), s ≠ "" → pyOr (some s) b = s)
    ∧ pyOr Option.none Option.none = ""
    ∧ travelDateOf "2025-06-24T07:30:00" = .ok "2025-06-24"
    ∧ travelDateOf "2025-06-24 07:30:00" = .ok "2025-06-24"
    ∧ travelDateOf "" = .error "list index out of range"
    ∧ (∀ (fetch : Nat → Except String Dataset) (rs : List Reservation),
        (∀ p ∈ flatPairs rs, airlineCodeOf p.2 = "XQ"
            ∨ ∃ td, travelDateOf (departureDateOf p.2) = .ok td) →
        (∃ out, processFlights fetch 0 (flatPairs rs) = .ok out)
        ∧ ∃ res, analyzeRouteComplianceWithApi fetch rs = .ok res)
    ∧ (∀ (fetch : Nat → Except String Dataset) (rs : List Reservation) (e : String),
        analyzeRouteComplianceWithApi fetch rs = .error e →
        checkRouteCompliance fetch rs
          = .pdict [("rule_name", .pstr "SunExpress Route Compliance"),
                    ("status", .pstr "SYSTEM_ERROR"),
                    ("message", .pstr
                      ("System error during route compliance check: " ++ e)),
                    ("details", .pdict [("violations", .plist []),
                                        ("error_type", .pstr "data_error"),
                                        ("error_message", .pstr e)])]) := by
  refine ⟨?_, ?_, ?_, rfl, rfl, rfl, rfl, ?_, ?_⟩
  · intro fetch n br f hxq
    unfold stepFlight
    rw [if_pos hxq]
  · intro s
    rfl
  · intro s b hs
    show (if s = "" then b.getD "" else s) = s
    rw [if_neg hs]
  · intro fetch rs h
    have key : ∀ (l : List (String × Flight)),
        (∀ p ∈ l, airlineCodeOf p.2 = "XQ"
            ∨ ∃ td, travelDateOf (departureDateOf p.2) = .ok td) →
        ∀ n, ∃ out, processFlights fetch n l = .ok out := by
      intro l
      induction l with
      | nil => intro _ n; exact ⟨([], []), rfl⟩
      | cons hd tl ih =>
          intro h2 n
          obtain ⟨br, f⟩ := hd
          have hstep : ∃ o, stepFlight fetch n br f = .ok o := by
            rcases h2 (br, f) (List.mem_cons_self _ _) with hx | ⟨td, htd⟩
            · refine ⟨([], [], n), ?_⟩
              unfold stepFlight
              rw [if_pos hx]
            · exact stepFlight_ok_of_date fetch n br f td htd
          obtain ⟨o, hs⟩ := hstep
          obtain ⟨vs, es, n2⟩ := o
          obtain ⟨out2, h2s⟩ := ih (fun p hp => h2 p (List.mem_cons_of_mem _ hp)) n2
          obtain ⟨vs2, es2⟩ := out2
          refine ⟨(vs ++ vs2, es ++ es2), ?_⟩
          unfold processFlights
          simp only [hs, h2s]
    obtain ⟨⟨vs, es⟩, hp⟩ := key (flatPairs rs) h 0
    refine ⟨⟨(vs, es), hp⟩, ?_⟩
    unfold analyzeRouteComplianceWithApi
    rw [hp]
    cases he : es.isEmpty with
    | true => simp only [he, eq_self_iff_true, if_true]; exact ⟨_, rfl⟩
    | false => simp only [he, Bool.false_eq_true, if_false]; exact ⟨_, rfl⟩
  · intro fetch rs e h
    unfold checkRouteCompliance
    rw [h]

/-- Witness for the amended C8: the XQ skip through the alternate field name,
the `pyOr` aliasing at concrete values, a run over a TK booking whose
timestamps are well-formed, and the raise-and-convert path at a missing
timestamp. -/
theorem route_analysis_field_resolution_and_dates_witness :
    stepFlight (fun _ => .ok ds1) 5 "BR1" xqFlightAlt = .ok ([], [], 5)
    ∧ pyOr Option.none (some "XQ") = "XQ"
    ∧ pyOr (some "TK") (some "XX") = "TK"
    ∧ (∃ out, processFlights (fun _ => .ok ds1) 0 (flatPairs [tkReservation]) = .ok out)
    ∧ (∃ res, analyzeRouteComplianceWithApi (fun _ => .ok ds1) [tkReservation] = .ok res)
    ∧ checkRouteCompliance (fun _ => .ok ds1) [badDateReservation]
      = .pdict [("rule_name", .pstr "SunExpress Route Compliance"),
                ("status", .pstr "SYSTEM_ERROR"),
                ("message", .pstr
                  ("System error during route compliance check: "
                    ++ "list index out of range")),
                ("details", .pdict [("violations", .plist []),
                                    ("error_type", .pstr "data_error"),
                                    ("error_message", .pstr "list index out of range")])] := by
  have hmem : ∀ p ∈ flatPairs [tkReservation],
      airlineCodeOf p.2 = "XQ" ∨ ∃ td, travelDateOf (departureDateOf p.2) = .ok td := by
    intro p hp
    have hfl : flatPairs [tkReservation] = [("BR1", tkFlight)] := rfl
    rw [hfl] at hp
    have hp2 := List.mem_singleton.mp hp
    subst hp2
    exact Or.inr ⟨"2025-06-24", rfl⟩
  refine ⟨?_, ?_, ?_, ?_, ?_, ?_⟩
  · exact route_analysis_field_resolution_and_dates.1 (fun _ => .ok ds1) 5 "BR1"
      xqFlightAlt rfl
  · exact route_analysis_field_resolution_and_dates.2.1 "XQ"
  · exact route_analysis_field_resolution_and_dates.2.2.1 "TK" (some "XX") (by decide)
  · exact (route_analysis_field_resolution_and_dates.2.2.2.2.2.2.2.1
      (fun _ => .ok ds1) [tkReservation] hmem).1
  · exact (route_analysis_field_resolution_and_dates.2.2.2.2.2.2.2.1
      (fun _ => .ok ds1) [tkReservation] hmem).2
  · exact route_analysis_field_resolution_and_dates.2.2.2.2.2.2.2.2
      (fun _ => .ok ds1) [badDateReservation] "list index out of range" rfl
